import Mathlib

/-!
Verification of the safety-gated fix pipeline:
`rule_classifier.py`, `fix_orchestrator.py` and `safety_checker.py`
from the `agent/` package, shallowly embedded in Lean.
-/

set_option maxHeartbeats 1000000

/-- A canonical issue record as produced by the external scanner
(`ruff` JSON output): filename, 1-based line, rule code, message.
The pipeline itself only reads the `code` field and list lengths. -/
structure Issue where
  filename : String
  line : Nat
  code : String
  message : String
deriving DecidableEq

/-- `RuleCategory` enum from `rule_classifier.py`: SAFE / RISKY / SUGGEST. -/
inductive RuleCategory where
  | SAFE
  | RISKY
  | SUGGEST
deriving DecidableEq

/-- The `.value` of the Python enum member. -/
def RuleCategory.value : RuleCategory → String
  | .SAFE => "safe"
  | .RISKY => "risky"
  | .SUGGEST => "suggest"

/-- One entry of a classification table: display name and safety score
(the `'name'` / `'safety'` keys of the Python dict values). -/
structure RuleInfo where
  name : String
  safety : Nat
deriving DecidableEq

/-- `RuleClassifier.SAFE_RULES` (insertion-ordered dict as an assoc list). -/
def SAFE_RULES : List (String × RuleInfo) :=
  [("F401", ⟨"Unused import", 100⟩),
   ("F541", ⟨"Useless f-string", 100⟩),
   ("W291", ⟨"Trailing whitespace", 100⟩),
   ("W292", ⟨"No newline at EOF", 100⟩),
   ("W293", ⟨"Blank line with whitespace", 100⟩),
   ("E701", ⟨"Multiple statements on one line", 100⟩),
   ("E702", ⟨"Unnecessary semicolon", 100⟩),
   ("E711", ⟨"Comparison to None", 100⟩),
   ("E712", ⟨"Comparison to True/False", 100⟩)]

/-- `RuleClassifier.RISKY_RULES`. Note `F401` appears here as well as in
`SAFE_RULES`. -/
def RISKY_RULES : List (String × RuleInfo) :=
  [("F841", ⟨"Unused variable", 50⟩),
   ("E501", ⟨"Line too long", 30⟩),
   ("C901", ⟨"Function too complex", 20⟩),
   ("F401", ⟨"Unused import with side effects", 40⟩)]

/-- `RuleClassifier.SUGGEST_RULES`. -/
def SUGGEST_RULES : List (String × RuleInfo) :=
  [("D100", ⟨"Missing module docstring", 0⟩),
   ("D101", ⟨"Missing class docstring", 0⟩),
   ("D102", ⟨"Missing function docstring", 0⟩),
   ("D103", ⟨"Missing method docstring", 0⟩)]

/-- Dict key lookup (`rule_code in table` / `table[rule_code]`). -/
def findRule : List (String × RuleInfo) → String → Option RuleInfo
  | [], _ => none
  | (c, info) :: rest, code => if code = c then some info else findRule rest code

/-- The classification dict returned by `RuleClassifier.classify`:
`code`, `category`, `safety_score` and display `name`.
(The Python dict-merge `**table[rule_code]` additionally copies the raw
`safety` key of the table entry; it coincides with `safety_score` in
every branch, so it is not modelled separately.) -/
structure Classification where
  code : String
  category : RuleCategory
  safety_score : Nat
  name : String
deriving DecidableEq

/-- `RuleClassifier.classify`: SAFE table checked first, then RISKY,
else the SUGGEST fallback with score 0 and generic name. -/
def classify (rule_code : String) : Classification :=
  match findRule SAFE_RULES rule_code with
  | some info => ⟨rule_code, .SAFE, 100, info.name⟩
  | none =>
    match findRule RISKY_RULES rule_code with
    | some info => ⟨rule_code, .RISKY, info.safety, info.name⟩
    | none => ⟨rule_code, .SUGGEST, 0, "Rule " ++ rule_code⟩

/-- The merged dict `{**issue, **classified}` appended by
`group_by_category`: the issue together with its classification
(the only overlapping key, `code`, is equal on both sides). -/
structure ClassifiedIssue where
  issue : Issue
  classification : Classification
deriving DecidableEq

/-- Classify one issue by its rule code. -/
def classifyIssue (i : Issue) : ClassifiedIssue :=
  ⟨i, classify i.code⟩

/-- The `{'safe': [...], 'risky': [...], 'suggest': [...]}` dict built by
`RuleClassifier.group_by_category`. -/
structure Grouped where
  safe : List ClassifiedIssue
  risky : List ClassifiedIssue
  suggest : List ClassifiedIssue
deriving DecidableEq

/-- Loop body of `RuleClassifier.group_by_category`: classify one issue
and append the merged record to the list named by
`classified['category'].value`. -/
def groupStep (g : Grouped) (issue : Issue) : Grouped :=
  let c := classifyIssue issue
  match c.classification.category with
  | .SAFE => { g with safe := g.safe ++ [c] }
  | .RISKY => { g with risky := g.risky ++ [c] }
  | .SUGGEST => { g with suggest := g.suggest ++ [c] }

/-- `RuleClassifier.group_by_category`: iterate over the issues in order,
starting from the three empty lists. -/
def group_by_category (issues : List Issue) : Grouped :=
  issues.foldl groupStep ⟨[], [], []⟩

/-- Boolean test that a classified issue landed in category `cat`. -/
def isCat (cat : RuleCategory) (c : ClassifiedIssue) : Bool :=
  c.classification.category = cat

/-- Bump the count of `code` in an insertion-ordered counting dict
(`grouped[code] = grouped.get(code, 0) + 1`). -/
def updateCount : List (String × Nat) → String → List (String × Nat)
  | [], code => [(code, 1)]
  | (c, n) :: rest, code =>
      if c = code then (c, n + 1) :: rest else (c, n) :: updateCount rest code

/-- The `plan['summary']` dict of `FixOrchestrator.plan_fixes`. -/
structure FixSummary where
  total_issues : Nat
  will_fix : Nat
  needs_review : Nat
  suggestions : Nat
  fixes_by_rule : List (String × Nat)
deriving DecidableEq

/-- The plan dict of `FixOrchestrator.plan_fixes`. -/
structure FixPlan where
  to_fix : List ClassifiedIssue
  to_review : List ClassifiedIssue
  to_suggest : List ClassifiedIssue
  summary : FixSummary
deriving DecidableEq

/-- `FixOrchestrator.plan_fixes`: safe issues always go to `to_fix`;
the safety mode then routes the risky and suggest groups; an unknown
mode matches no `if`/`elif` branch and adds nothing further. Finally the
summary counts are computed, with `fixes_by_rule` counting `to_fix`
issues by rule code in iteration order. -/
def plan_fixes (issues : List Issue) (safety_mode : String) : FixPlan :=
  let grouped := group_by_category issues
  let base := grouped.safe
  let groups : List ClassifiedIssue × List ClassifiedIssue × List ClassifiedIssue :=
    if safety_mode = "safe" then (base, grouped.risky, grouped.suggest)
    else if safety_mode = "smart" then (base, grouped.risky, grouped.suggest)
    else if safety_mode = "all" then (base ++ grouped.risky, [], grouped.suggest)
    else (base, [], [])
  let fix_counts := groups.1.foldl (fun g c => updateCount g c.issue.code) []
  ⟨groups.1, groups.2.1, groups.2.2,
   ⟨issues.length, groups.1.length, groups.2.1.length, groups.2.2.length, fix_counts⟩⟩

/-- One invocation of the external scanner as observed by
`SafetyChecker.scan_repo`: the captured stdout of the subprocess and the
outcome of `json.loads` on it (`none` when parsing raises). -/
structure ScanResult where
  stdout : String
  parsed : Option (List Issue)

/-- `SafetyChecker.scan_repo` after the subprocess call: empty
(whitespace-only) stdout yields `[]`; a parse failure is swallowed by the
bare `except` and also yields `[]`; otherwise the parsed issue list. -/
def scan_repo (r : ScanResult) : List Issue :=
  if r.stdout.trim = "" then []
  else
    match r.parsed with
    | some data => data
    | none => []

/-- The two snapshot fields of a `SafetyChecker` instance; `none` models
the Python `None` initial value. -/
structure SafetyChecker where
  initial_scan : Option (List Issue)
  final_scan : Option (List Issue)
deriving DecidableEq

/-- `SafetyChecker.__init__`: both snapshots unset. -/
def SafetyChecker.init : SafetyChecker := ⟨none, none⟩

/-- `SafetyChecker._group_by_code`: count issues per rule code into an
insertion-ordered dict. -/
def group_by_code (issues : List Issue) : List (String × Nat) :=
  issues.foldl (fun grouped issue => updateCount grouped issue.code) []

/-- The `{'total': ..., 'by_code': ...}` dict returned by
`record_before` / `record_after`. -/
structure ScanSummary where
  total : Nat
  by_code : List (String × Nat)
deriving DecidableEq

/-- `SafetyChecker.record_before`: scan, store the snapshot in
`initial_scan`, and return the summary dict. -/
def record_before (c : SafetyChecker) (r : ScanResult) : SafetyChecker × ScanSummary :=
  let issues := scan_repo r
  (⟨some issues, c.final_scan⟩, ⟨issues.length, group_by_code issues⟩)

/-- `SafetyChecker.record_after`: scan, store the snapshot in
`final_scan`, and return the summary dict. -/
def record_after (c : SafetyChecker) (r : ScanResult) : SafetyChecker × ScanSummary :=
  let issues := scan_repo r
  (⟨c.initial_scan, some issues⟩, ⟨issues.length, group_by_code issues⟩)

/-- The set `{i['code'] for i in s}` of distinct rule codes of a snapshot. -/
def codesOf (s : List Issue) : Finset String :=
  (s.map Issue.code).toFinset

/-- The dict returned by `SafetyChecker.check_regressions`: either the
incomplete shape (`status` + `message`) or the full report shape. The
Python set differences are returned via `list(...)`, whose order is
unspecified; they are modelled as the underlying `Finset`s. -/
inductive RegressionReport where
  | incomplete (message : String)
  | report (status : String) (new_issues : Finset String) (fixed_issues : Finset String)
      (issues_before : Nat) (issues_after : Nat) (net_fixed : Int)
deriving DecidableEq

/-- `SafetyChecker.check_regressions`: guard on unrecorded snapshots,
then diff the distinct rule-code sets and report instance counts. -/
def check_regressions (c : SafetyChecker) : RegressionReport :=
  match c.initial_scan, c.final_scan with
  | some a, some b =>
      let initial_codes := codesOf a
      let final_codes := codesOf b
      let new_issues := final_codes \ initial_codes
      let fixed_issues := initial_codes \ final_codes
      .report (if new_issues = ∅ then "ok" else "warning") new_issues fixed_issues
        a.length b.length ((a.length : Int) - (b.length : Int))
  | _, _ => .incomplete "Before/after scans not recorded"

/-- The `check_regressions` method as a state transition: the method
assigns to no attribute of `self`, so the instance state is returned
unchanged alongside the report. -/
def check_regressions_step (c : SafetyChecker) : SafetyChecker × RegressionReport :=
  (c, check_regressions c)

/-! ### Helper lemmas -/

theorem foldl_groupStep (issues : List Issue) (g : Grouped) :
    issues.foldl groupStep g =
      ⟨g.safe ++ (issues.map classifyIssue).filter (isCat .SAFE),
       g.risky ++ (issues.map classifyIssue).filter (isCat .RISKY),
       g.suggest ++ (issues.map classifyIssue).filter (isCat .SUGGEST)⟩ := by
  induction issues generalizing g with
  | nil => simp
  | cons i rest ih =>
    rcases h : (classifyIssue i).classification.category with _ | _ | _ <;>
      simp [groupStep, h, ih, isCat, List.filter_cons]

/-- `group_by_category` collects exactly the classified issues of each
category, in input order. -/
theorem group_by_category_eq (issues : List Issue) :
    group_by_category issues =
      ⟨(issues.map classifyIssue).filter (isCat .SAFE),
       (issues.map classifyIssue).filter (isCat .RISKY),
       (issues.map classifyIssue).filter (isCat .SUGGEST)⟩ := by
  simpa using foldl_groupStep issues ⟨[], [], []⟩

theorem filter_isCat_cons_pos (cat : RuleCategory) (c : ClassifiedIssue)
    (cs : List ClassifiedIssue) (h : c.classification.category = cat) :
    List.filter (isCat cat) (c :: cs) = c :: List.filter (isCat cat) cs := by
  simp [List.filter_cons, isCat, h]

theorem filter_isCat_cons_neg (cat : RuleCategory) (c : ClassifiedIssue)
    (cs : List ClassifiedIssue) (h : c.classification.category ≠ cat) :
    List.filter (isCat cat) (c :: cs) = List.filter (isCat cat) cs := by
  simp [List.filter_cons, isCat, h]

/-- The three category filters are a permutation partition of the list. -/
theorem filter_cat_partition_perm (l : List ClassifiedIssue) :
    (l.filter (isCat .SAFE) ++ l.filter (isCat .RISKY) ++ l.filter (isCat .SUGGEST)).Perm l := by
  induction l with
  | nil => simp
  | cons c cs ih =>
    have ih' : (List.filter (isCat .SAFE) cs ++
        (List.filter (isCat .RISKY) cs ++ List.filter (isCat .SUGGEST) cs)).Perm cs := by
      simpa [List.append_assoc] using ih
    rcases h : c.classification.category with _ | _ | _
    · rw [filter_isCat_cons_pos _ _ _ h, filter_isCat_cons_neg _ _ _ (by simp [h]),
        filter_isCat_cons_neg _ _ _ (by simp [h])]
      simpa using ih.cons c
    · rw [filter_isCat_cons_pos _ _ _ h, filter_isCat_cons_neg _ _ _ (by simp [h]),
        filter_isCat_cons_neg _ _ _ (by simp [h]), List.append_assoc, List.cons_append]
      exact List.perm_middle.trans (ih'.cons c)
    · rw [filter_isCat_cons_pos _ _ _ h, filter_isCat_cons_neg _ _ _ (by simp [h]),
        filter_isCat_cons_neg _ _ _ (by simp [h])]
      refine List.perm_middle.trans ?_
      exact ((by simpa using ih : ((List.filter (isCat .SAFE) cs ++
        List.filter (isCat .RISKY) cs) ++ List.filter (isCat .SUGGEST) cs).Perm cs).cons c)

theorem classifyIssue_issue (i : Issue) : (classifyIssue i).issue = i := rfl

theorem classify_fallback (code : String)
    (hS : findRule SAFE_RULES code = none) (hR : findRule RISKY_RULES code = none) :
    classify code = ⟨code, .SUGGEST, 0, "Rule " ++ code⟩ := by
  simp [classify, hS, hR]

/-- Appending the SAFE filter and the RISKY filter is a permutation of a
single filter for "SAFE or RISKY". -/
theorem filter_safe_risky_append_perm (l : List ClassifiedIssue) :
    (l.filter (isCat .SAFE) ++ l.filter (isCat .RISKY)).Perm
      (l.filter (fun c => isCat .SAFE c || isCat .RISKY c)) := by
  induction l with
  | nil => simp
  | cons c cs ih =>
    rcases h : c.classification.category with _ | _ | _
    · rw [filter_isCat_cons_pos _ _ _ h, filter_isCat_cons_neg _ _ _ (by simp [h]),
        List.cons_append]
      have hor : List.filter (fun c => isCat .SAFE c || isCat .RISKY c) (c :: cs) =
          c :: List.filter (fun c => isCat .SAFE c || isCat .RISKY c) cs := by
        simp [List.filter_cons, isCat, h]
      rw [hor]
      exact ih.cons c
    · rw [filter_isCat_cons_neg _ _ _ (by simp [h]), filter_isCat_cons_pos _ _ _ h]
      have hor : List.filter (fun c => isCat .SAFE c || isCat .RISKY c) (c :: cs) =
          c :: List.filter (fun c => isCat .SAFE c || isCat .RISKY c) cs := by
        simp [List.filter_cons, isCat, h]
      rw [hor]
      exact List.perm_middle.trans (ih.cons c)
    · rw [filter_isCat_cons_neg _ _ _ (by simp [h]), filter_isCat_cons_neg _ _ _ (by simp [h])]
      have hor : List.filter (fun c => isCat .SAFE c || isCat .RISKY c) (c :: cs) =
          List.filter (fun c => isCat .SAFE c || isCat .RISKY c) cs := by
        simp [List.filter_cons, isCat, h]
      rw [hor]
      exact ih

theorem map_classifyIssue_issue (issues : List Issue) :
    (issues.map classifyIssue).map ClassifiedIssue.issue = issues := by
  induction issues with
  | nil => rfl
  | cons i rest ih => simp [ih, classifyIssue_issue]

/-! ### Claim theorems -/

/-- C3: a rule code absent from the SAFE, RISKY and SUGGEST tables
classifies as category SUGGEST with safety score 0 (and the generic
display name); `classify` is a total function, so it cannot raise. -/
theorem classify_unknown_code (code : String)
    (hS : findRule SAFE_RULES code = none) (hR : findRule RISKY_RULES code = none)
    (_hG : findRule SUGGEST_RULES code = none) :
    classify code = ⟨code, .SUGGEST, 0, "Rule " ++ code⟩ :=
  classify_fallback code hS hR

theorem classify_unknown_code_witness :
    classify "E999" = ⟨"E999", .SUGGEST, 0, "Rule E999"⟩ :=
  classify_unknown_code "E999" (by decide) (by decide) (by decide)

/-- C4: lookup precedence is SAFE first, then RISKY, then the SUGGEST
fallback: any code in the SAFE table classifies SAFE with score 100
(even `F401`, which is also in the RISKY table); a code found only in
the RISKY table gets that table's score; codes in neither fall through. -/
theorem classify_precedence :
    (∀ code info, findRule SAFE_RULES code = some info →
        classify code = ⟨code, .SAFE, 100, info.name⟩) ∧
    (∀ code info, findRule SAFE_RULES code = none →
        findRule RISKY_RULES code = some info →
        classify code = ⟨code, .RISKY, info.safety, info.name⟩) ∧
    (∀ code, findRule SAFE_RULES code = none → findRule RISKY_RULES code = none →
        (classify code).category = .SUGGEST) ∧
    (findRule SAFE_RULES "F401").isSome ∧ (findRule RISKY_RULES "F401").isSome ∧
    classify "F401" = ⟨"F401", .SAFE, 100, "Unused import"⟩ := by
  refine ⟨?_, ?_, ?_, by decide, by decide, by decide⟩
  · intro code info hS
    simp [classify, hS]
  · intro code info hS hR
    simp [classify, hS, hR]
  · intro code hS hR
    simp [classify, hS, hR]

theorem classify_precedence_witness :
    classify "F401" = ⟨"F401", .SAFE, 100, "Unused import"⟩ ∧
    classify "E501" = ⟨"E501", .RISKY, 30, "Line too long"⟩ ∧
    (classify "ABC123").category = .SUGGEST :=
  ⟨classify_precedence.1 "F401" ⟨"Unused import", 100⟩ (by decide),
   classify_precedence.2.1 "E501" ⟨"Line too long", 30⟩ (by decide) (by decide),
   classify_precedence.2.2.1 "ABC123" (by decide) (by decide)⟩

/-- C10: a code that sits only in the SUGGEST table (such as D100–D103)
classifies exactly like a completely unknown code — SUGGEST, score 0,
generic name `Rule <code>` — because `classify` never consults the
SUGGEST table; in particular the table's stored display name differs
from the name `classify` returns. -/
theorem classify_suggest_table_unused :
    (∀ code, findRule SAFE_RULES code = none → findRule RISKY_RULES code = none →
        classify code = ⟨code, .SUGGEST, 0, "Rule " ++ code⟩) ∧
    (∀ code ∈ ["D100", "D101", "D102", "D103"],
        (findRule SUGGEST_RULES code).isSome ∧
        findRule SAFE_RULES code = none ∧ findRule RISKY_RULES code = none ∧
        classify code = ⟨code, .SUGGEST, 0, "Rule " ++ code⟩ ∧
        Option.map RuleInfo.name (findRule SUGGEST_RULES code) ≠ some (classify code).name) := by
  refine ⟨fun code hS hR => classify_fallback code hS hR, ?_⟩
  decide

theorem classify_suggest_table_unused_witness :
    classify "D100" = ⟨"D100", .SUGGEST, 0, "Rule D100"⟩ ∧
    (findRule SUGGEST_RULES "D100").isSome :=
  ⟨classify_suggest_table_unused.1 "D100" (by decide) (by decide),
   (classify_suggest_table_unused.2 "D100" (by decide)).1⟩

/-- C6: planning with safety mode `safe` and with safety mode `smart`
produces identical plans — the same three groups and the same summary. -/
theorem plan_fixes_safe_eq_smart (issues : List Issue) :
    plan_fixes issues "safe" = plan_fixes issues "smart" := by
  simp [plan_fixes]

/-- C2: for every issue list and safety mode, the three plan groups
together hold exactly the multiset of input issues: mapping the grouped
records back to their underlying issues and concatenating the groups is
a permutation of the input list (hence exhaustive and duplicate-free
across groups). -/
theorem plan_fixes_partition (issues : List Issue) (safety_mode : String)
    (h : safety_mode = "safe" ∨ safety_mode = "smart" ∨ safety_mode = "all") :
    (((plan_fixes issues safety_mode).to_fix ++ (plan_fixes issues safety_mode).to_review ++
        (plan_fixes issues safety_mode).to_suggest).map ClassifiedIssue.issue).Perm issues := by
  have hpart := filter_cat_partition_perm (issues.map classifyIssue)
  have key : ∀ l : List ClassifiedIssue,
      l.Perm (issues.map classifyIssue) → ((l.map ClassifiedIssue.issue).Perm issues) := by
    intro l hl
    have hm := hl.map ClassifiedIssue.issue
    rwa [map_classifyIssue_issue] at hm
  rcases h with h | h | h <;> subst h <;> apply key <;>
    simpa [plan_fixes, group_by_category_eq] using hpart

theorem plan_fixes_partition_witness :
    (((plan_fixes [⟨"file.py", 1, "F401", "unused import"⟩, ⟨"a.py", 2, "F841", "unused var"⟩,
          ⟨"b.py", 3, "D100", "missing docstring"⟩] "all").to_fix ++
        (plan_fixes [⟨"file.py", 1, "F401", "unused import"⟩, ⟨"a.py", 2, "F841", "unused var"⟩,
          ⟨"b.py", 3, "D100", "missing docstring"⟩] "all").to_review ++
        (plan_fixes [⟨"file.py", 1, "F401", "unused import"⟩, ⟨"a.py", 2, "F841", "unused var"⟩,
          ⟨"b.py", 3, "D100", "missing docstring"⟩] "all").to_suggest).map
        ClassifiedIssue.issue).Perm
      [⟨"file.py", 1, "F401", "unused import"⟩, ⟨"a.py", 2, "F841", "unused var"⟩,
        ⟨"b.py", 3, "D100", "missing docstring"⟩] :=
  plan_fixes_partition _ "all" (Or.inr (Or.inr rfl))

/-- C5: with mode `all`, `to_fix` holds exactly the SAFE- and
RISKY-classified issues and `to_review` is empty; with mode `safe`,
`to_fix` holds exactly the SAFE ones and `to_review` exactly the RISKY
ones; in both modes `to_suggest` holds exactly the SUGGEST ones. -/
theorem plan_fixes_mode_policy (issues : List Issue) :
    ((plan_fixes issues "all").to_fix).Perm
      ((issues.map classifyIssue).filter (fun c => isCat .SAFE c || isCat .RISKY c)) ∧
    (plan_fixes issues "all").to_review = [] ∧
    (plan_fixes issues "all").to_suggest = (issues.map classifyIssue).filter (isCat .SUGGEST) ∧
    (plan_fixes issues "safe").to_fix = (issues.map classifyIssue).filter (isCat .SAFE) ∧
    (plan_fixes issues "safe").to_review = (issues.map classifyIssue).filter (isCat .RISKY) ∧
    (plan_fixes issues "safe").to_suggest = (issues.map classifyIssue).filter (isCat .SUGGEST) := by
  refine ⟨?_, ?_, ?_, ?_, ?_, ?_⟩
  · have hperm := filter_safe_risky_append_perm (issues.map classifyIssue)
    simpa [plan_fixes, group_by_category_eq] using hperm
  all_goals simp [plan_fixes, group_by_category_eq]

/-- C1: with both snapshots recorded, `check_regressions` reports the
new rule codes as the set difference `codes(B) − codes(A)` and the fixed
ones as `codes(A) − codes(B)` (distinct codes: a code is new iff some
issue of B carries it and no issue of A does, and dually for fixed);
status is `warning` exactly when a new code exists and `ok` otherwise;
`net_fixed` is the instance count of A minus the instance count of B. -/
theorem check_regressions_spec (c : SafetyChecker) (a b : List Issue)
    (ha : c.initial_scan = some a) (hb : c.final_scan = some b) :
    check_regressions c =
      .report (if codesOf b \ codesOf a = ∅ then "ok" else "warning")
        (codesOf b \ codesOf a) (codesOf a \ codesOf b)
        a.length b.length ((a.length : Int) - (b.length : Int)) ∧
    ((if codesOf b \ codesOf a = ∅ then "ok" else "warning") = "warning" ↔
      (codesOf b \ codesOf a).Nonempty) ∧
    ((if codesOf b \ codesOf a = ∅ then "ok" else "warning") = "ok" ↔
      codesOf b \ codesOf a = ∅) ∧
    (∀ code, code ∈ codesOf b \ codesOf a ↔
      code ∈ b.map Issue.code ∧ code ∉ a.map Issue.code) ∧
    (∀ code, code ∈ codesOf a \ codesOf b ↔
      code ∈ a.map Issue.code ∧ code ∉ b.map Issue.code) := by
  refine ⟨by simp [check_regressions, ha, hb], ?_, ?_, ?_, ?_⟩
  · by_cases h : codesOf b \ codesOf a = ∅ <;>
      simp [h, Finset.nonempty_iff_ne_empty]
  · by_cases h : codesOf b \ codesOf a = ∅ <;> simp [h]
  · intro code
    simp [codesOf, Finset.mem_sdiff]
  · intro code
    simp [codesOf, Finset.mem_sdiff]

theorem check_regressions_spec_witness :
    check_regressions
        ⟨some [⟨"file.py", 1, "F401", "m1"⟩, ⟨"file.py", 5, "E711", "m2"⟩,
            ⟨"file.py", 9, "W291", "m3"⟩],
          some [⟨"file.py", 5, "E711", "m2"⟩]⟩ =
      RegressionReport.report "ok" ∅ {"F401", "W291"} 3 1 2 := by
  have h := (check_regressions_spec
    ⟨some [⟨"file.py", 1, "F401", "m1"⟩, ⟨"file.py", 5, "E711", "m2"⟩,
        ⟨"file.py", 9, "W291", "m3"⟩],
      some [⟨"file.py", 5, "E711", "m2"⟩]⟩
    [⟨"file.py", 1, "F401", "m1"⟩, ⟨"file.py", 5, "E711", "m2"⟩, ⟨"file.py", 9, "W291", "m3"⟩]
    [⟨"file.py", 5, "E711", "m2"⟩] rfl rfl).1
  rw [h]
  decide

/-- C7: when at least one of the two snapshots has not been recorded,
`check_regressions` returns the `incomplete` result — a shape that
carries no issue counts — and (being a total function) cannot raise. -/
theorem check_regressions_incomplete (c : SafetyChecker)
    (h : c.initial_scan = none ∨ c.final_scan = none) :
    check_regressions c = .incomplete "Before/after scans not recorded" := by
  obtain ⟨i, f⟩ := c
  cases i <;> cases f <;> simp_all [check_regressions]

theorem check_regressions_incomplete_witness :
    check_regressions SafetyChecker.init =
      RegressionReport.incomplete "Before/after scans not recorded" :=
  check_regressions_incomplete SafetyChecker.init (Or.inl rfl)

/-- C8: an empty (whitespace-only) scanner output, or output on which
the JSON parse fails, makes `scan_repo` return the empty issue list, so
`record_before` and `record_after` succeed and record an empty snapshot
with a zero-count summary. -/
theorem scan_failure_empty (r : ScanResult) (c : SafetyChecker)
    (h : r.stdout.trim = "" ∨ r.parsed = none) :
    scan_repo r = [] ∧
    (record_before c r).1.initial_scan = some [] ∧
    (record_before c r).2 = ⟨0, []⟩ ∧
    (record_after c r).1.final_scan = some [] ∧
    (record_after c r).2 = ⟨0, []⟩ := by
  have hs : scan_repo r = [] := by
    rcases h with h | h
    · simp [scan_repo, h]
    · by_cases ht : r.stdout.trim = "" <;> simp [scan_repo, ht, h]
  exact ⟨hs, by simp [record_before, hs], by simp [record_before, hs, group_by_code],
    by simp [record_after, hs], by simp [record_after, hs, group_by_code]⟩

theorem scan_failure_empty_witness :
    scan_repo ⟨"oops not json", none⟩ = [] ∧
    (record_before SafetyChecker.init ⟨"oops not json", none⟩).1.initial_scan = some [] ∧
    (record_before SafetyChecker.init ⟨"oops not json", none⟩).2 = ⟨0, []⟩ ∧
    (record_after SafetyChecker.init ⟨"oops not json", none⟩).1.final_scan = some [] ∧
    (record_after SafetyChecker.init ⟨"oops not json", none⟩).2 = ⟨0, []⟩ :=
  scan_failure_empty ⟨"oops not json", none⟩ SafetyChecker.init (Or.inr rfl)

/-- C9: once both snapshots are recorded, the `check_regressions` step
leaves the checker state — and hence both stored snapshots — unchanged,
and calling it again yields the identical report; the step consumes no
scan input, so no new scan can occur. -/
theorem check_regressions_idempotent (c : SafetyChecker) (a b : List Issue)
    (ha : c.initial_scan = some a) (hb : c.final_scan = some b) :
    (check_regressions_step c).1 = c ∧
    (check_regressions_step c).1.initial_scan = some a ∧
    (check_regressions_step c).1.final_scan = some b ∧
    (check_regressions_step (check_regressions_step c).1).2 = (check_regressions_step c).2 :=
  ⟨rfl, ha, hb, rfl⟩

theorem check_regressions_idempotent_witness :
    (check_regressions_step ⟨some [⟨"f.py", 1, "F401", "m"⟩], some []⟩).1 =
      ⟨some [⟨"f.py", 1, "F401", "m"⟩], some []⟩ ∧
    (check_regressions_step ⟨some [⟨"f.py", 1, "F401", "m"⟩], some []⟩).1.initial_scan =
      some [⟨"f.py", 1, "F401", "m"⟩] ∧
    (check_regressions_step ⟨some [⟨"f.py", 1, "F401", "m"⟩], some []⟩).1.final_scan =
      some [] ∧
    (check_regressions_step
        (check_regressions_step ⟨some [⟨"f.py", 1, "F401", "m"⟩], some []⟩).1).2 =
      (check_regressions_step ⟨some [⟨"f.py", 1, "F401", "m"⟩], some []⟩).2 :=
  check_regressions_idempotent ⟨some [⟨"f.py", 1, "F401", "m"⟩], some []⟩
    [⟨"f.py", 1, "F401", "m"⟩] [] rfl rfl

